import Mathlib

/-!
Verification of the visual-servoing tracker of raspi-control.

The definitions below are a shallow embedding of `src/tracking/tracker_pi.py`
(the bus-publishing visual-servo loop the spec describes). Python floats are
modelled as rationals, wall-clock instants (`time.time()`, `time.time_ns()`)
as explicit inputs to each cycle, and the external OpenCV tracker as an
oracle input (`initOk` for `tracker.init`, `upd` for `tracker.update`).
-/

namespace RaspiControl

/-- Constants from `tracker_pi.py` line 3: `EMA_ALPHA=0.3`. -/
def EMA_ALPHA : ℚ := 3/10

/-- Constant `Kp_turn=0.7` from `tracker_pi.py` line 3. -/
def Kp_turn : ℚ := 7/10

/-- Constant `TARGET_AREA=12000` from `tracker_pi.py` line 3. -/
def TARGET_AREA : ℚ := 12000

/-- Constant `MIN_AREA=60` from `tracker_pi.py` line 3 (pixel areas are integers). -/
def MIN_AREA : ℤ := 60

/-- The helper `clamp(x, lo, hi): return lo if x < lo else hi if x > hi else x`
from `tracker_pi.py` line 5 (identical in `track.py` line 14). -/
def clamp (x lo hi : ℚ) : ℚ := if x < lo then lo else if hi < x then hi else x

/-- The EMA update used for both the centroid and the area
(`tracker_pi.py` lines 71-72): `v if v_s is None else (1-EMA_ALPHA)*v_s + EMA_ALPHA*v`. -/
def ema (prev : Option ℚ) (obs : ℚ) : ℚ :=
  match prev with
  | none => obs
  | some p => (1 - EMA_ALPHA) * p + EMA_ALPHA * obs

/-- The per-cycle control outputs computed on the tracking path
(`tracker_pi.py` lines 74-77). -/
structure Control where
  err_x : ℚ
  turn : ℚ
  fwd : ℚ
  l : ℚ
  r : ℚ
deriving DecidableEq

/-- The control law of `tracker_pi.py` lines 74-77, a pure function of the
smoothed centroid `mxS`, smoothed area `areaS` and frame half-width `cx`. -/
def controlLaw (mxS areaS cx : ℚ) : Control :=
  let e := (mxS - cx) / cx
  let t := clamp (-Kp_turn * e) (-1) 1
  let f := if areaS < TARGET_AREA then
             clamp ((TARGET_AREA - areaS) / max TARGET_AREA 1) (15/100) (7/10)
           else 0
  { err_x := e, turn := t, fwd := f,
    l := clamp (f + t) (-1) 1, r := clamp (f - t) (-1) 1 }

/-- The three publication topics of `tracker_pi.py` lines 104-118
(`video.annot`, `tensor.state`, `drive.cmd`). -/
inductive Topic
  | videoAnnot
  | tensorState
  | driveCmd
deriving DecidableEq

/-- One published message: its topic, the sequence number its header carries
(if any) and the `time.time_ns()` timestamp stamped into it at send time. -/
structure Msg where
  topic : Topic
  seq : Option ℕ
  ts_ns : ℕ
deriving DecidableEq

/-- The publish step of `tracker_pi.py` lines 104-118: the annotated video is
sent only when JPEG encoding succeeds (`okJ`); the video and tensor headers
carry `seq_out`; the `drive.cmd` payload carries only `l`, `r`, `ts_ns`
(line 117) and hence no sequence number. Each message is stamped with its own
`time.time_ns()` call (`tsV`, `tsT`, `tsC`). -/
def publishMsgs (seq : ℕ) (okJ : Bool) (tsV tsT tsC : ℕ) : List Msg :=
  (if okJ then [{ topic := .videoAnnot, seq := some seq, ts_ns := tsV }] else []) ++
  [{ topic := .tensorState, seq := some seq, ts_ns := tsT },
   { topic := .driveCmd, seq := none, ts_ns := tsC }]

/-- The mutable loop variables of `tracker_pi.py` lines 33-37 that persist
across cycles: `have_roi`, the EMA state `mx_s`/`area_s`, `last_seen`
(seconds) and the outgoing sequence counter `seq_out`. -/
structure LoopState where
  have_roi : Bool
  mx_s : Option ℚ
  area_s : Option ℚ
  last_seen : ℚ
  seq_out : ℕ
deriving DecidableEq

/-- A bounding box as returned by the tracker after the `int(v)` conversion
of `tracker_pi.py` line 67. -/
structure Box where
  x : ℤ
  y : ℤ
  w : ℤ
  h : ℤ
deriving DecidableEq

/-- The per-cycle inputs of one iteration of the `while True` loop:
frame width `W`, the external tracker's responses (`initOk` consulted only
when a reinit happens, `upd` = `tracker.update`: `some box` on success,
`none` on failure), the `time.time()` readings at the three call sites
(line 60 reinit, line 78 success, line 99 lost check), the JPEG-encode
outcome `okJ` and the three `time.time_ns()` readings of the publish step. -/
structure CycleIn where
  W : ℕ
  initOk : Bool
  upd : Option Box
  tReinit : ℚ
  tSeen : ℚ
  tCheck : ℚ
  okJ : Bool
  tsV : ℕ
  tsT : ℕ
  tsC : ℕ
deriving DecidableEq

/-- TrackState mode observed on a cycle: the tracking path
(lines 66-92) or the lost path (lines 96-102). -/
inductive Mode
  | Tracking
  | Lost
deriving DecidableEq

/-- Everything one cycle produces: the successor loop state, the drive
command pair `(drive_l, drive_r)`, the control record when the tracking path
ran, the mode taken, and the published messages. -/
structure CycleOut where
  state : LoopState
  drive : ℚ × ℚ
  ctrl : Option Control
  mode : Mode
  msgs : List Msg
deriving DecidableEq

/-- Lines 52-60: when `have_roi` is false a fresh tracker is initialised;
`have_roi` becomes the init result, the EMA state is cleared and `last_seen`
is reset to the current time. Otherwise the state passes through unchanged. -/
def afterInit (s : LoopState) (i : CycleIn) : LoopState :=
  if s.have_roi then s
  else { s with have_roi := i.initOk, mx_s := none, area_s := none,
                last_seen := i.tReinit }

/-- Line 62: `ok, bbox = tracker.update(frame) if have_roi else (False, None)`. -/
def updResult (s : LoopState) (i : CycleIn) : Option Box :=
  if (afterInit s i).have_roi then i.upd else none

/-- Whether the cycle takes the tracking path: update succeeded and the
returned box has area `≥ MIN_AREA` (lines 66-69; line 94 folds a tiny box
into `ok = False`). -/
def isTrackOk (s : LoopState) (i : CycleIn) : Bool :=
  match updResult s i with
  | some b => decide (MIN_AREA ≤ b.w * b.h)
  | none => false

/-- The lost path, lines 96-102 and 104-120: the drive command is the search
spin `(+0.25, -0.25)`, overwritten with `(0, 0)` when more than 3 seconds
have passed since `last_seen`; `have_roi` is cleared so the next cycle
reinitialises; the three publishes still run. -/
def lostOut (s1 : LoopState) (i : CycleIn) : CycleOut :=
  { state := { s1 with have_roi := false, seq_out := s1.seq_out + 1 },
    drive := if 3 < i.tCheck - s1.last_seen then ((0 : ℚ), (0 : ℚ))
             else ((1/4 : ℚ), (-(1/4) : ℚ)),
    ctrl := none,
    mode := .Lost,
    msgs := publishMsgs s1.seq_out i.okJ i.tsV i.tsT i.tsC }

/-- The tracking path, lines 70-92 and 104-120: EMA-update the centroid
`mx = x + w/2` and the area `w*h`, run the control law against the frame
half-width, record `last_seen`, and publish. -/
def trackOut (s1 : LoopState) (i : CycleIn) (b : Box) : CycleOut :=
  let mxS := ema s1.mx_s ((b.x : ℚ) + (b.w : ℚ) / 2)
  let areaS := ema s1.area_s ((b.w * b.h : ℤ) : ℚ)
  let c := controlLaw mxS areaS ((i.W : ℚ) / 2)
  let s2 : LoopState :=
    { s1 with mx_s := some mxS, area_s := some areaS, last_seen := i.tSeen, seq_out := s1.seq_out + 1 }
  { state := s2,
    drive := (c.l, c.r),
    ctrl := some c,
    mode := .Tracking,
    msgs := publishMsgs s1.seq_out i.okJ i.tsV i.tsT i.tsC }

/-- One full iteration of the `while True` loop of `tracker_pi.py`
(lines 39-120) on a successfully decoded frame. -/
def cycle (s : LoopState) (i : CycleIn) : CycleOut :=
  let s1 := afterInit s i
  match updResult s i with
  | some b => if MIN_AREA ≤ b.w * b.h then trackOut s1 i b else lostOut s1 i
  | none => lostOut s1 i

/-- Running the loop over a list of per-cycle inputs, threading the state. -/
def run (s : LoopState) : List CycleIn → List CycleOut
  | [] => []
  | i :: is =>
    let o := cycle s i
    o :: run (cycle s i).state is

/-- The centered default initialisation box of `tracker_pi.py` line 56 and
`track_and_stream_pi.py` lines 109-110: `w = min(80, W//3)`,
`h = min(80, H//3)`, `x = W//2 - w//2`, `y = H//2 - h//2`, as `(x, y, w, h)`. -/
def defaultBox (W H : ℤ) : ℤ × ℤ × ℤ × ℤ :=
  let w := min 80 (W / 3)
  let h := min 80 (H / 3)
  (W / 2 - w / 2, H / 2 - h / 2, w, h)

/-! Concrete sample states and inputs used by witnesses and counterexamples. -/

/-- A loop state in the middle of a healthy track (centroid at frame centre,
area 1600, last success at t = 0). -/
def sTrack : LoopState :=
  { have_roi := true, mx_s := some 160, area_s := some 1600,
    last_seen := 0, seq_out := 0 }

/-- The loop state before the very first initialisation. -/
def sFresh : LoopState :=
  { have_roi := false, mx_s := none, area_s := none,
    last_seen := 0, seq_out := 0 }

/-- The example box of the spec's end-to-end scenario 1: (140, 100, 40, 40). -/
def boxEx : Box := { x := 140, y := 100, w := 40, h := 40 }

/-- A cycle input at time `t` on which the tracker's update fails. -/
def inFail (t : ℚ) : CycleIn :=
  { W := 320, initOk := true, upd := none,
    tReinit := t, tSeen := t, tCheck := t, okJ := true,
    tsV := 10, tsT := 11, tsC := 12 }

/-- A cycle input on which the tracker succeeds with `boxEx` at time 1. -/
def inOk : CycleIn :=
  { W := 320, initOk := true, upd := some boxEx,
    tReinit := 1, tSeen := 1, tCheck := 1, okJ := true,
    tsV := 10, tsT := 11, tsC := 12 }

/-- `inOk` with the JPEG encode failing. -/
def inNoJpg : CycleIn :=
  { W := 320, initOk := true, upd := some boxEx,
    tReinit := 1, tSeen := 1, tCheck := 1, okJ := false,
    tsV := 10, tsT := 11, tsC := 12 }

/-- A first-cycle input on which `tracker.init` fails (reinit at t = 5,
lost check at t = 6). -/
def inInitFail : CycleIn :=
  { W := 320, initOk := false, upd := some boxEx,
    tReinit := 5, tSeen := 5, tCheck := 6, okJ := true,
    tsV := 10, tsT := 11, tsC := 12 }

/-! Helper lemmas shared across the claim theorems. -/

/-- Clamping with ordered bounds lands in the closed interval. -/
lemma clamp_bounds (x lo hi : ℚ) (h : lo ≤ hi) :
    lo ≤ clamp x lo hi ∧ clamp x lo hi ≤ hi := by
  unfold clamp
  split_ifs with h1 h2 <;> constructor <;> linarith

/-- Reinitialisation does not touch the sequence counter. -/
lemma afterInit_seq_out (s : LoopState) (i : CycleIn) :
    (afterInit s i).seq_out = s.seq_out := by
  unfold afterInit
  split <;> rfl

/-- Every cycle, on either path, publishes exactly the messages of
`publishMsgs` at the pre-increment sequence counter. -/
lemma cycle_msgs (s : LoopState) (i : CycleIn) :
    (cycle s i).msgs = publishMsgs s.seq_out i.okJ i.tsV i.tsT i.tsC := by
  unfold cycle
  cases h : updResult s i with
  | none => simp [lostOut, afterInit_seq_out]
  | some b =>
    by_cases hb : MIN_AREA ≤ b.w * b.h
    · simp [hb, trackOut, afterInit_seq_out]
    · simp [hb, lostOut, afterInit_seq_out]

/-- On a tracking-path cycle the mode is `Tracking` and `have_roi` stays set. -/
lemma cycle_track (s : LoopState) (i : CycleIn) (b : Box)
    (hs : s.have_roi = true) (hb : i.upd = some b)
    (ha : MIN_AREA ≤ b.w * b.h) :
    (cycle s i).mode = Mode.Tracking ∧ (cycle s i).state.have_roi = true := by
  have h1 : afterInit s i = s := by unfold afterInit; simp [hs]
  have h2 : updResult s i = some b := by unfold updResult; simp [h1, hs, hb]
  unfold cycle
  simp [h2, ha, trackOut, h1, hs]

/-- On a cycle where the tracking path is not taken, the lost path runs. -/
lemma cycle_lost (s : LoopState) (i : CycleIn) (h : isTrackOk s i = false) :
    cycle s i = lostOut (afterInit s i) i := by
  unfold isTrackOk at h
  unfold cycle
  cases hu : updResult s i with
  | none => rfl
  | some b =>
    rw [hu] at h
    simp only [decide_eq_false_iff_not] at h
    simp [h]


/-- The 5-cycle failure trace of the spec's end-to-end scenario 2: the
tracker reports failure on five consecutive cycles at t = 0.8, 1.6, 2.4,
3.2, 4.0 seconds (spanning 4 seconds after the last success at t = 0). -/
def failTrace : List CycleIn :=
  [inFail (4/5), inFail (8/5), inFail (12/5), inFail (16/5), inFail 4]

/-- Projection of the tracking-path drive command through the control law. -/
lemma trackOut_drive (s1 : LoopState) (i : CycleIn) (b : Box) :
    (trackOut s1 i b).drive =
      ((controlLaw (ema s1.mx_s ((b.x : ℚ) + (b.w : ℚ) / 2))
          (ema s1.area_s ((b.w * b.h : ℤ) : ℚ)) ((i.W : ℚ) / 2)).l,
       (controlLaw (ema s1.mx_s ((b.x : ℚ) + (b.w : ℚ) / 2))
          (ema s1.area_s ((b.w * b.h : ℤ) : ℚ)) ((i.W : ℚ) / 2)).r) := rfl

/-- The left output is the clamped superposition of forward and turn. -/
lemma controlLaw_l (mxS areaS cx : ℚ) :
    (controlLaw mxS areaS cx).l =
      clamp ((controlLaw mxS areaS cx).fwd + (controlLaw mxS areaS cx).turn) (-1) 1 := rfl

/-- The right output is the clamped difference of forward and turn. -/
lemma controlLaw_r (mxS areaS cx : ℚ) :
    (controlLaw mxS areaS cx).r =
      clamp ((controlLaw mxS areaS cx).fwd - (controlLaw mxS areaS cx).turn) (-1) 1 := rfl

/-- Both control-law outputs lie in the closed interval [-1, 1]. -/
lemma controlLaw_lr_range (mxS areaS cx : ℚ) :
    -1 ≤ (controlLaw mxS areaS cx).l ∧ (controlLaw mxS areaS cx).l ≤ 1 ∧
    -1 ≤ (controlLaw mxS areaS cx).r ∧ (controlLaw mxS areaS cx).r ≤ 1 := by
  rw [controlLaw_l, controlLaw_r]
  have h1 := clamp_bounds ((controlLaw mxS areaS cx).fwd + (controlLaw mxS areaS cx).turn)
    (-1) 1 (by norm_num)
  have h2 := clamp_bounds ((controlLaw mxS areaS cx).fwd - (controlLaw mxS areaS cx).turn)
    (-1) 1 (by norm_num)
  exact ⟨h1.1, h1.2, h2.1, h2.2⟩

/-- On a cycle whose update succeeded with a large-enough box, the cycle is
the tracking path applied to the post-init state. -/
lemma cycle_eq_trackOut (s : LoopState) (i : CycleIn) (b : Box)
    (h : updResult s i = some b) (hb : MIN_AREA ≤ b.w * b.h) :
    cycle s i = trackOut (afterInit s i) i b := by
  unfold cycle
  rw [h]
  simp [hb]

/-- A run over inputs that all succeed with area at least MIN_AREA keeps
every cycle on the tracking path, provided the session starts locked. -/
lemma run_tracking (ins : List CycleIn) :
    ∀ s : LoopState, s.have_roi = true →
    (∀ j ∈ ins, ∃ b, j.upd = some b ∧ MIN_AREA ≤ b.w * b.h) →
    ∀ o ∈ run s ins, o.mode = Mode.Tracking := by
  induction ins with
  | nil =>
    intro s _ _ o ho
    simp [run] at ho
  | cons j js ih =>
    intro s hs hok o ho
    obtain ⟨b, hb, ha⟩ := hok j (List.mem_cons_self j js)
    obtain ⟨hm, hr⟩ := cycle_track s j b hs hb ha
    rw [run] at ho
    rcases List.mem_cons.1 ho with rfl | ho'
    · exact hm
    · exact ih (cycle s j).state hr (fun k hk => hok k (List.mem_cons_of_mem _ hk)) o ho'

/-- Claim C1: for every Tracking-mode cycle with smoothed centroid `mxS`,
smoothed area `areaS` and half-width `cx`, the control law computes
`error_x = (mxS - cx)/cx`, `turn = clamp(-0.7*error_x, -1, 1)`,
`forward = 0` when `areaS ≥ 12000` and otherwise
`clamp((12000 - areaS)/12000, 0.15, 0.7)`, and outputs
`left = clamp(forward + turn, -1, 1)`, `right = clamp(forward - turn, -1, 1)`. -/
theorem C1_control_law (mxS areaS cx : ℚ) :
    (controlLaw mxS areaS cx).err_x = (mxS - cx) / cx ∧
    (controlLaw mxS areaS cx).turn = clamp (-(7/10 : ℚ) * ((mxS - cx) / cx)) (-1) 1 ∧
    (controlLaw mxS areaS cx).fwd =
      (if (12000 : ℚ) ≤ areaS then 0
       else clamp (((12000 : ℚ) - areaS) / 12000) (15/100) (7/10)) ∧
    (controlLaw mxS areaS cx).l =
      clamp ((controlLaw mxS areaS cx).fwd + (controlLaw mxS areaS cx).turn) (-1) 1 ∧
    (controlLaw mxS areaS cx).r =
      clamp ((controlLaw mxS areaS cx).fwd - (controlLaw mxS areaS cx).turn) (-1) 1 := by
  refine ⟨rfl, ?_, ?_, rfl, rfl⟩
  · show clamp (-Kp_turn * ((mxS - cx) / cx)) (-1) 1 = _
    norm_num [Kp_turn]
  · show (if areaS < TARGET_AREA then
        clamp ((TARGET_AREA - areaS) / max TARGET_AREA 1) (15/100) (7/10) else 0) = _
    rcases lt_or_le areaS 12000 with h | h
    · rw [if_pos (show areaS < TARGET_AREA by rw [TARGET_AREA]; exact h),
        if_neg (not_le.2 h)]
      norm_num [TARGET_AREA]
    · rw [if_neg (show ¬ areaS < TARGET_AREA by rw [TARGET_AREA]; exact not_lt.2 h),
        if_pos h]

/-- Claim C2: in the Lost state, if the elapsed time since `last_seen`
exceeds 3 seconds the emitted drive command is exactly (0, 0), and
otherwise it is exactly the search spin (+0.25, -0.25); no other command
is emitted while Lost. -/
theorem C2_lost_drive (s : LoopState) (i : CycleIn) (h : isTrackOk s i = false) :
    (cycle s i).drive =
      if 3 < i.tCheck - (afterInit s i).last_seen then ((0 : ℚ), (0 : ℚ))
      else ((1/4 : ℚ), (-(1/4) : ℚ)) := by
  rw [cycle_lost s i h]
  rfl

/-- Witness for C2 at a concrete lost cycle one second after the last
sighting: the command is the search spin. -/
theorem C2_lost_drive_witness :
    isTrackOk sTrack (inFail 1) = false ∧
    (cycle sTrack (inFail 1)).drive =
      (if 3 < (inFail 1).tCheck - (afterInit sTrack (inFail 1)).last_seen
       then ((0 : ℚ), (0 : ℚ)) else ((1/4 : ℚ), (-(1/4) : ℚ))) :=
  ⟨rfl, C2_lost_drive sTrack (inFail 1) rfl⟩

/-- Claim C3 is false on the code: at a concrete tracking cycle the three
published messages do not share one sequence number (the `drive.cmd`
payload of `tracker_pi.py` line 117 carries none) and do not share one
timestamp (each message is stamped by its own `time.time_ns()` call). -/
theorem C3_counterexample :
    (¬ ∃ n : ℕ, ∀ m ∈ (cycle sTrack inOk).msgs, m.seq = some n) ∧
    (¬ ∀ m ∈ (cycle sTrack inOk).msgs, ∀ m' ∈ (cycle sTrack inOk).msgs,
        m.ts_ns = m'.ts_ns) := by
  have hm : (cycle sTrack inOk).msgs =
      [{ topic := .videoAnnot, seq := some 0, ts_ns := 10 },
       { topic := .tensorState, seq := some 0, ts_ns := 11 },
       { topic := .driveCmd, seq := none, ts_ns := 12 }] := by
    norm_num [cycle, updResult, afterInit, sTrack, inOk, boxEx, trackOut, publishMsgs, MIN_AREA]
  constructor
  · rintro ⟨n, hseq⟩
    have h3 := hseq { topic := .driveCmd, seq := none, ts_ns := 12 } (by rw [hm]; simp)
    simp at h3
  · intro hts
    have h := hts { topic := .videoAnnot, seq := some 0, ts_ns := 10 } (by rw [hm]; simp)
      { topic := .tensorState, seq := some 0, ts_ns := 11 } (by rw [hm]; simp)
    simp at h

/-- Claim C3 amended: for every processed cycle, the `video.annotated` and
`state.tensor` messages carry one identical sequence number (the cycle's
`seq_out`); the `drive.cmd` message carries no sequence number; each of the
three messages is stamped with its own send-time timestamp rather than a
shared capture timestamp. -/
theorem C3_amended_seq (s : LoopState) (i : CycleIn) :
    (∀ m ∈ (cycle s i).msgs, m.topic ≠ Topic.driveCmd → m.seq = some s.seq_out) ∧
    (∀ m ∈ (cycle s i).msgs, m.topic = Topic.driveCmd → m.seq = none) := by
  rw [cycle_msgs]
  unfold publishMsgs
  cases h : i.okJ <;> simp

/-- Witness for the amended C3 at a concrete cycle: the tensor message is
published and carries sequence number `seq_out = 0`. -/
theorem C3_amended_seq_witness :
    ({ topic := Topic.tensorState, seq := some 0, ts_ns := 11 } : Msg) ∈
      (cycle sTrack inOk).msgs ∧
    ({ topic := Topic.tensorState, seq := some 0, ts_ns := 11 } : Msg).seq =
      some sTrack.seq_out := by
  have hmem : ({ topic := Topic.tensorState, seq := some 0, ts_ns := 11 } : Msg) ∈
      (cycle sTrack inOk).msgs := by
    have hm : (cycle sTrack inOk).msgs =
        [{ topic := .videoAnnot, seq := some 0, ts_ns := 10 },
         { topic := .tensorState, seq := some 0, ts_ns := 11 },
         { topic := .driveCmd, seq := none, ts_ns := 12 }] := by
      norm_num [cycle, updResult, afterInit, sTrack, inOk, boxEx, trackOut, publishMsgs, MIN_AREA]
    rw [hm]
    simp
  exact ⟨hmem, (C3_amended_seq sTrack inOk).1 _ hmem (by simp)⟩

/-- Claim C4 is false on the code: at a concrete first cycle on which
`tracker.init` fails, the session does not stop and a `drive.cmd` message
carrying the search spin (+0.25, -0.25) is still published. -/
theorem C4_counterexample :
    (cycle sFresh inInitFail).drive = ((1/4 : ℚ), (-(1/4) : ℚ)) ∧
    ∃ m ∈ (cycle sFresh inInitFail).msgs, m.topic = Topic.driveCmd := by
  constructor
  · norm_num [cycle, updResult, afterInit, sFresh, inInitFail, lostOut]
  · refine ⟨{ topic := .driveCmd, seq := none, ts_ns := 12 }, ?_, rfl⟩
    norm_num [cycle, updResult, afterInit, sFresh, inInitFail, lostOut, publishMsgs]

/-- Claim C4 amended: when the session is uninitialised and the tracking
capability's init on the selected initial region fails, the session
continues rather than terminating: the cycle runs the Lost path, still
publishes a `drive.cmd` message (the search spin, or (0,0) after the
3-second timeout), and leaves `have_roi` false so the next cycle retries
initialisation. -/
theorem C4_amended (s : LoopState) (i : CycleIn)
    (h1 : s.have_roi = false) (h2 : i.initOk = false) :
    (cycle s i).mode = Mode.Lost ∧
    (cycle s i).drive = (if 3 < i.tCheck - i.tReinit then ((0 : ℚ), (0 : ℚ))
                         else ((1/4 : ℚ), (-(1/4) : ℚ))) ∧
    (∃ m ∈ (cycle s i).msgs, m.topic = Topic.driveCmd) ∧
    (cycle s i).state.have_roi = false := by
  have hai : (afterInit s i).have_roi = false := by
    unfold afterInit
    simp [h1, h2]
  have hup : updResult s i = none := by
    unfold updResult
    simp [hai]
  have hls : (afterInit s i).last_seen = i.tReinit := by
    unfold afterInit
    simp [h1]
  have hcy : cycle s i = lostOut (afterInit s i) i := by
    unfold cycle
    rw [hup]
  rw [hcy]
  refine ⟨rfl, ?_, ?_, rfl⟩
  · simp only [lostOut]
    rw [hls]
  · exact ⟨{ topic := .driveCmd, seq := none, ts_ns := i.tsC }, by simp [lostOut, publishMsgs], rfl⟩

/-- Witness for the amended C4: the concrete failed-init cycle takes the
Lost path, publishes the spin and stays uninitialised. -/
theorem C4_amended_witness :
    sFresh.have_roi = false ∧ inInitFail.initOk = false ∧
    ((cycle sFresh inInitFail).mode = Mode.Lost ∧
     (cycle sFresh inInitFail).drive =
       (if 3 < inInitFail.tCheck - inInitFail.tReinit then ((0 : ℚ), (0 : ℚ))
        else ((1/4 : ℚ), (-(1/4) : ℚ))) ∧
     (∃ m ∈ (cycle sFresh inInitFail).msgs, m.topic = Topic.driveCmd) ∧
     (cycle sFresh inInitFail).state.have_roi = false) :=
  ⟨rfl, rfl, C4_amended sFresh inInitFail rfl rfl⟩

/-- Claim C5 is false on the code: on the concrete 5-cycle failure trace
spanning 4 seconds (last success at t = 0), every cycle is Lost, yet the
commands emitted after the 3-second mark (cycles at t = 3.2 and t = 4.0)
are the search spin (+0.25, -0.25), not (0, 0): each cycle's
reinitialisation resets `last_seen`, so the timeout never fires. -/
theorem C5_counterexample :
    (run sTrack failTrace).map CycleOut.mode =
      [Mode.Lost, Mode.Lost, Mode.Lost, Mode.Lost, Mode.Lost] ∧
    (run sTrack failTrace).map CycleOut.drive =
      [((1/4 : ℚ), (-(1/4) : ℚ)), ((1/4 : ℚ), (-(1/4) : ℚ)), ((1/4 : ℚ), (-(1/4) : ℚ)),
       ((1/4 : ℚ), (-(1/4) : ℚ)), ((1/4 : ℚ), (-(1/4) : ℚ))] ∧
    ((run sTrack failTrace).map CycleOut.drive).getD 3 ((0 : ℚ), (0 : ℚ)) ≠
      ((0 : ℚ), (0 : ℚ)) := by
  refine ⟨?_, ?_, ?_⟩ <;>
    norm_num [run, failTrace, cycle, updResult, afterInit, sTrack, inFail, lostOut,
      trackOut, publishMsgs]

/-- Claim C5 amended: after consecutive tracker failures the state machine
is in Lost on every cycle, but every such cycle reinitialises and thereby
resets `last_seen`, so any lost cycle whose in-cycle elapsed time
(`tCheck - tReinit`) is at most 3 seconds emits the search spin
(+0.25, -0.25); (0, 0) would require more than 3 seconds to pass within a
single cycle between reinitialisation and the lost check. -/
theorem C5_amended (s : LoopState) (i : CycleIn)
    (h1 : s.have_roi = false) (h2 : isTrackOk s i = false)
    (h3 : i.tCheck - i.tReinit ≤ 3) :
    (cycle s i).mode = Mode.Lost ∧
    (cycle s i).drive = ((1/4 : ℚ), (-(1/4) : ℚ)) := by
  have hls : (afterInit s i).last_seen = i.tReinit := by
    unfold afterInit
    simp [h1]
  rw [cycle_lost s i h2]
  refine ⟨rfl, ?_⟩
  simp only [lostOut]
  rw [hls, if_neg (not_lt.2 h3)]

/-- Witness for the amended C5: a concrete reinit-and-fail cycle at t = 4
emits the spin even though more than 3 seconds have passed since the last
actual sighting at t = 0. -/
theorem C5_amended_witness :
    sFresh.have_roi = false ∧ isTrackOk sFresh (inFail 4) = false ∧
    (inFail 4).tCheck - (inFail 4).tReinit ≤ 3 ∧
    ((cycle sFresh (inFail 4)).mode = Mode.Lost ∧
     (cycle sFresh (inFail 4)).drive = ((1/4 : ℚ), (-(1/4) : ℚ))) :=
  ⟨rfl, rfl, by norm_num [inFail],
   C5_amended sFresh (inFail 4) rfl rfl (by norm_num [inFail])⟩

/-- Claim C6: starting from a locked session, a sequence of successful
updates each with box area at least MIN_AREA keeps every cycle in Tracking
mode; and a single update that fails or returns a box of area below
MIN_AREA makes that cycle Lost and clears `have_roi`, so the session is no
longer Tracking when the next cycle begins. -/
theorem C6_state_machine (s : LoopState) (ins : List CycleIn) (i : CycleIn)
    (hs : s.have_roi = true)
    (hok : ∀ j ∈ ins, ∃ b, j.upd = some b ∧ MIN_AREA ≤ b.w * b.h) :
    (∀ o ∈ run s ins, o.mode = Mode.Tracking) ∧
    (isTrackOk s i = false →
      (cycle s i).mode = Mode.Lost ∧ (cycle s i).state.have_roi = false) := by
  refine ⟨run_tracking ins s hs hok, fun h => ?_⟩
  rw [cycle_lost s i h]
  exact ⟨rfl, rfl⟩

/-- Witness for C6: two concrete successful cycles stay Tracking, and a
concrete failing update is Lost with `have_roi` cleared. -/
theorem C6_state_machine_witness :
    sTrack.have_roi = true ∧
    (∀ j ∈ [inOk, inOk], ∃ b, j.upd = some b ∧ MIN_AREA ≤ b.w * b.h) ∧
    (∀ o ∈ run sTrack [inOk, inOk], o.mode = Mode.Tracking) ∧
    isTrackOk sTrack (inFail 1) = false ∧
    ((cycle sTrack (inFail 1)).mode = Mode.Lost ∧
     (cycle sTrack (inFail 1)).state.have_roi = false) := by
  have h2 : ∀ j ∈ [inOk, inOk], ∃ b, j.upd = some b ∧ MIN_AREA ≤ b.w * b.h := by
    intro j hj
    rcases List.mem_cons.1 hj with rfl | hj'
    · exact ⟨boxEx, rfl, by decide⟩
    · rcases List.mem_cons.1 hj' with rfl | hj''
      · exact ⟨boxEx, rfl, by decide⟩
      · simp at hj''
  refine ⟨rfl, h2, (C6_state_machine sTrack [inOk, inOk] (inFail 1) rfl h2).1, rfl,
    (C6_state_machine sTrack [inOk, inOk] (inFail 1) rfl h2).2 rfl⟩

/-- Claim C7: the EMA update used for both the smoothed centroid and the
smoothed area is monotonically bounded — with a previously seeded state the
updated value lies between the previous smoothed value and the observation
(inclusive) — and the first valid observation seeds the average directly. -/
theorem C7_ema_bounds :
    (∀ p obs : ℚ, min p obs ≤ ema (some p) obs ∧ ema (some p) obs ≤ max p obs) ∧
    (∀ obs : ℚ, ema (none : Option ℚ) obs = obs) := by
  refine ⟨fun p obs => ?_, fun obs => rfl⟩
  unfold ema EMA_ALPHA
  rcases le_total p obs with h | h
  · rw [min_eq_left h, max_eq_right h]
    constructor <;> linarith
  · rw [min_eq_right h, max_eq_left h]
    constructor <;> linarith

/-- Claim C8: in every cycle and every state (Tracking, Lost before the
timeout, Lost after the timeout) the emitted left and right commands lie in
the closed interval [-1, 1]. -/
theorem C8_drive_in_range (s : LoopState) (i : CycleIn) :
    -1 ≤ (cycle s i).drive.1 ∧ (cycle s i).drive.1 ≤ 1 ∧
    -1 ≤ (cycle s i).drive.2 ∧ (cycle s i).drive.2 ≤ 1 := by
  by_cases h : isTrackOk s i = true
  · unfold isTrackOk at h
    cases hu : updResult s i with
    | none =>
      rw [hu] at h
      simp at h
    | some b =>
      rw [hu] at h
      simp only [decide_eq_true_eq] at h
      rw [cycle_eq_trackOut s i b hu h, trackOut_drive]
      exact controlLaw_lr_range _ _ _
  · rw [cycle_lost s i (by simpa using h)]
    simp only [lostOut]
    split_ifs <;> norm_num

/-- Claim C9: if JPEG encoding of the annotated frame fails in a cycle,
only that cycle's video message is skipped; the tensor/state and drive
command messages for the same cycle are still published. -/
theorem C9_encode_skip (s : LoopState) (i : CycleIn) (h : i.okJ = false) :
    (∀ m ∈ (cycle s i).msgs, m.topic ≠ Topic.videoAnnot) ∧
    (∃ m ∈ (cycle s i).msgs, m.topic = Topic.tensorState) ∧
    (∃ m ∈ (cycle s i).msgs, m.topic = Topic.driveCmd) := by
  rw [cycle_msgs]
  unfold publishMsgs
  rw [h]
  simp

/-- Witness for C9 at a concrete cycle whose JPEG encode fails. -/
theorem C9_encode_skip_witness :
    inNoJpg.okJ = false ∧
    ((∀ m ∈ (cycle sTrack inNoJpg).msgs, m.topic ≠ Topic.videoAnnot) ∧
     (∃ m ∈ (cycle sTrack inNoJpg).msgs, m.topic = Topic.tensorState) ∧
     (∃ m ∈ (cycle sTrack inNoJpg).msgs, m.topic = Topic.driveCmd)) :=
  ⟨rfl, C9_encode_skip sTrack inNoJpg rfl⟩

/-- Claim C10: for every frame with width and height at least 3, the
default initialisation box `(W//2 - w//2, H//2 - h//2, min(80, W//3),
min(80, H//3))` has positive width and height and lies entirely inside the
frame. -/
theorem C10_default_box (W H : ℤ) (hW : 3 ≤ W) (hH : 3 ≤ H) :
    0 < (defaultBox W H).2.2.1 ∧ 0 < (defaultBox W H).2.2.2 ∧
    0 ≤ (defaultBox W H).1 ∧ 0 ≤ (defaultBox W H).2.1 ∧
    (defaultBox W H).1 + (defaultBox W H).2.2.1 ≤ W ∧
    (defaultBox W H).2.1 + (defaultBox W H).2.2.2 ≤ H := by
  unfold defaultBox
  simp only [min_def]
  split_ifs <;> refine ⟨?_, ?_, ?_, ?_, ?_, ?_⟩ <;> omega

/-- Witness for C10 at the default 320x240 frame. -/
theorem C10_default_box_witness :
    (3 : ℤ) ≤ 320 ∧ (3 : ℤ) ≤ 240 ∧
    (0 < (defaultBox 320 240).2.2.1 ∧ 0 < (defaultBox 320 240).2.2.2 ∧
     0 ≤ (defaultBox 320 240).1 ∧ 0 ≤ (defaultBox 320 240).2.1 ∧
     (defaultBox 320 240).1 + (defaultBox 320 240).2.2.1 ≤ 320 ∧
     (defaultBox 320 240).2.1 + (defaultBox 320 240).2.2.2 ≤ 240) :=
  ⟨by norm_num, by norm_num,
   C10_default_box 320 240 (by norm_num) (by norm_num)⟩

end RaspiControl
